import Mathlib

/-!
# Verification of the Task dispatch core of `flytekit/annotated/base_task.py`

This file gives a shallow embedding of the `Task` / `PythonTask` dispatch and
translation logic of `src/flytekit/annotated/base_task.py` and proves the
specified properties about it.

Modelling conventions:
* Python values flowing through the core are the inductive `Val`.  Literal
  values (the wire representation) are opaque to this core, so they are also
  represented as `Val`; a Python `LiteralMap` (an insertion-ordered dict of
  variable name to literal) is an ordered association list
  `List (String × Val)`.
* Python exceptions are the inductive `Err`; fallible code returns
  `Except Err _`.
* The external collaborators (`TypeEngine.literal_map_to_kwargs`,
  `TypeEngine.to_literal`, `translate_inputs_to_literals`) are not part of
  this core (they live in modules outside the visible source) and are passed
  in as an explicit `Translator` record, so theorems quantify over every
  possible behaviour of the type-translation engine.
* `logger` calls and invocations of the user body are observable effects: the
  dispatch functions return, alongside their `Except` result, the list of
  emitted log events and the number of times the user body was invoked.
-/

/-- A Python runtime value as seen by this core: native scalars, tuples,
an already-constructed `LiteralMap` (dict from variable name to literal),
a `DynamicJobSpec` (opaque payload), or `None`. -/
inductive Val where
  | vint : Int → Val
  | vstr : String → Val
  | vbool : Bool → Val
  | tup : List Val → Val
  | litMap : List (String × Val) → Val
  | djSpec : Nat → Val
  | vnone : Val

/-- `isinstance(v, tuple)`. -/
def Val.isTuple : Val → Bool
  | .tup _ => true
  | _ => false

/-- `isinstance(v, _literal_models.LiteralMap)`. -/
def Val.isLitMap : Val → Bool
  | .litMap _ => true
  | _ => false

/-- `isinstance(v, _dynamic_job.DynamicJobSpec)`. -/
def Val.isDjSpec : Val → Bool
  | .djSpec _ => true
  | _ => false

/-- Python exceptions raised by (or through) the dispatch core.
`flyteAssertion` carries `len(args)` of the rejected positional arguments;
`tupleAssertion` carries the output name, the task name, the received value
and the expected python type, mirroring
`AssertionError(f"Output({k}) in task{self.name} received a tuple {v}, instead of {py_type}")`;
`lengthMismatch` carries the two lengths of
`AssertionError(f"Length difference {len(output_names)} {len(outputs_literals)}")`;
`indexError` / `keyError` / `typeError` / `attributeError` are the built-in
Python exceptions those operations raise; `translationError` and `userError`
stand for exceptions raised inside the external type engine and inside the
user body respectively. -/
inductive Err where
  | flyteAssertion : Nat → Err
  | tupleAssertion : String → String → Val → String → Err
  | lengthMismatch : Nat → Nat → Err
  | indexError : Nat → Err
  | keyError : String → Err
  | typeError : String → Err
  | attributeError : String → Err
  | translationError : String → Err
  | userError : String → Err

/-- An event emitted through `logger`. -/
inductive LogEvent where
  | info : String → LogEvent
  | warning : String → LogEvent
  | exceptionLog : Err → LogEvent

/-- One declared output variable: the python native type
(`python_interface.outputs[k]`) and the literal type
(`interface.outputs[k].type`).  Both are opaque type descriptors here. -/
structure OutVar where
  pyType : String
  litType : String
  deriving Repr, DecidableEq

/-- The data of a `PythonTask` read by the dispatch core: identity, the
python-native input declarations (name, python type, in declaration order)
and the output declarations (name, `OutVar`, in declaration order).  The
typed interface produced by `transform_interface_to_typed_interface` keeps
the same names in the same order, so one ordered list serves for both
`self.interface.outputs` and `self._python_interface.outputs`. -/
structure PythonTask where
  task_type : String
  name : String
  inputs : List (String × String)
  outputs : List (String × OutVar)
  deriving DecidableEq

/-- The external type-translation collaborators, passed in explicitly.
`litToKwargs` is `TypeEngine.literal_map_to_kwargs` (literal map and declared
input types to native kwargs), `toLiteral` is `TypeEngine.to_literal`
(native value, python type, literal type to literal), and
`inputsToLiterals` is `translate_inputs_to_literals` (mixed kwargs of
promises/constants to a literal map). -/
structure Translator where
  litToKwargs : List (String × Val) → List (String × String) → Except Err (List (String × Val))
  toLiteral : Val → String → String → Except Err Val
  inputsToLiterals : List (String × Val) → List (String × String) → Except Err (List (String × Val))

/-- The user body bound to a `PythonTask` (`self.execute(**kwargs)`):
named native arguments in, a native value out, or an exception. -/
def Body : Type := List (String × Val) → Except Err Val

/-- Result of `PythonTask.dispatch_execute`: a `VoidPromise` carrying the
task name, a `LiteralMap`, or a `DynamicJobSpec`. -/
inductive DispatchResult where
  | voidPromise : String → DispatchResult
  | literalMap : List (String × Val) → DispatchResult
  | dynamicJobSpec : Nat → DispatchResult

/-- `true` exactly on the "no value" sentinel. -/
def DispatchResult.isVoid : DispatchResult → Bool
  | .voidPromise _ => true
  | _ => false

/-- Observable outcome of a dispatch-level call: the log events emitted, the
number of invocations of the user body, and the result or exception. -/
structure DispatchOut where
  log : List LogEvent
  bodyCalls : Nat
  result : Except Err DispatchResult

/-- Elements of a Python ordered sequence, as used by
`enumerate(native_outputs)` / `native_outputs[i]`: tuples enumerate their
elements and strings enumerate their one-character substrings; other values
used here are not iterable and raise `TypeError`. -/
def seqElems : Val → Option (List Val)
  | .tup xs => some xs
  | .vstr s => some (s.toList.map (fun c => Val.vstr (String.mk [c])))
  | _ => none

/-- `{expected_output_names[i]: native_outputs[i] for i, _ in enumerate(native_outputs)}`:
walk the body's sequence with index `i`, pairing element `i` with declared
name `i`; an index beyond the name list raises `IndexError` (Python's
`list index out of range` on `expected_output_names[i]`). -/
def enumBind (names : List String) : Nat → List Val → Except Err (List (String × Val))
  | _, [] => .ok []
  | i, x :: xs =>
    match names.get? i with
    | none => .error (.indexError i)
    | some n => (enumBind names (i + 1) xs).map (fun rest => (n, x) :: rest)

/-- Outcome of the arity-directed reconciliation of the body's return value
against `expected_output_names`: either the `len == 0` early return of
`VoidPromise`, or the name-to-native-value map to be translated. -/
inductive Reconciled where
  | void : Reconciled
  | bound : List (String × Val) → Reconciled

/-- The `if len(expected_output_names) == 1 / elif == 0 / else` block of
`dispatch_execute`: one declared output takes the entire return value,
zero returns the sentinel, more than one treats the return value as an
ordered sequence bound positionally via `enumBind`. -/
def native_outputs_as_map (names : List String) (v : Val) : Except Err Reconciled :=
  match names with
  | [n] => .ok (.bound [(n, v)])
  | [] => .ok .void
  | ns =>
    match seqElems v with
    | none => .error (.typeError "object is not iterable")
    | some xs => (enumBind ns 0 xs).map Reconciled.bound

/-- The `for k, v in native_outputs_as_map.items()` loop of
`dispatch_execute`: look up the output's literal type
(`self.interface.outputs[k].type`, `KeyError` if absent) and python type
(`get_type_for_output_var`), raise the tuple `AssertionError` if the value
is a tuple, otherwise translate via `TypeEngine.to_literal`. -/
def translateLoop (tr : Translator) (t : PythonTask) : List (String × Val) → Except Err (List (String × Val))
  | [] => .ok []
  | (k, v) :: rest =>
    match t.outputs.lookup k with
    | none => .error (.keyError k)
    | some ov =>
      if v.isTuple then .error (.tupleAssertion k t.name v ov.pyType)
      else
        match tr.toLiteral v ov.pyType ov.litType with
        | .error e => .error e
        | .ok lit => (translateLoop tr t rest).map (fun r => (k, lit) :: r)

/-- `PythonTask.dispatch_execute`: translate the input literal map to native
kwargs, invoke the body (logging and re-raising its exceptions), short
circuit if the body returned a `LiteralMap` or `DynamicJobSpec`, otherwise
reconcile the return value against the declared outputs and translate each
bound value to a literal. -/
def dispatch_execute (tr : Translator) (body : Body) (t : PythonTask)
    (input_literal_map : List (String × Val)) : DispatchOut :=
  match tr.litToKwargs input_literal_map t.inputs with
  | .error e => { log := [], bodyCalls := 0, result := .error e }
  | .ok native_inputs =>
    let log0 : List LogEvent := [.info ("Invoking " ++ t.name ++ " with inputs")]
    match body native_inputs with
    | .error e =>
      { log := log0 ++ [.exceptionLog e], bodyCalls := 1, result := .error e }
    | .ok native_outputs =>
      let log1 := log0 ++ [.info "Task executed successfully in user level"]
      match native_outputs with
      | .litMap m => { log := log1, bodyCalls := 1, result := .ok (.literalMap m) }
      | .djSpec n => { log := log1, bodyCalls := 1, result := .ok (.dynamicJobSpec n) }
      | v =>
        match native_outputs_as_map (t.outputs.map Prod.fst) v with
        | .error e => { log := log1, bodyCalls := 1, result := .error e }
        | .ok .void => { log := log1, bodyCalls := 1, result := .ok (.voidPromise t.name) }
        | .ok (.bound m) =>
          match translateLoop tr t m with
          | .error e => { log := log1, bodyCalls := 1, result := .error e }
          | .ok lits => { log := log1, bodyCalls := 1, result := .ok (.literalMap lits) }

/-- A trivially successful `Translator`, used to instantiate theorems at
concrete inputs: it passes literal maps and values through unchanged. -/
def idTranslator : Translator where
  litToKwargs := fun m _ => .ok m
  toLiteral := fun v _ _ => .ok v
  inputsToLiterals := fun m _ => .ok m

/-- A `Promise`: a variable name together with the literal it carries
(`Promise(var, outputs_literals[var])`). -/
structure Promise where
  var : String
  val : Val

/-- Result of `Task._local_execute` (and of the local path of `__call__`):
the `VoidPromise` sentinel passed through unchanged, a single `Promise`, or
an ordered collection of promises. -/
inductive LocalResult where
  | void : String → LocalResult
  | single : Promise → LocalResult
  | multi : List Promise → LocalResult

/-- Modelled from the spec: `create_task_output` lives in the promise module,
which is outside the visible source.  Per the spec, the caller receives "a
single Promise when exactly one output exists, otherwise an ordered
collection of Promises". -/
def create_task_output (vals : List Promise) : LocalResult :=
  match vals with
  | [v] => .single v
  | vs => .multi vs

/-- `[Promise(var, outputs_literals[var]) for var in output_names]`: look
each output name up in the result literal map (Python dict indexing, so a
missing name raises `KeyError`). -/
def promisesFor (names : List String) (lits : List (String × Val)) : Except Err (List Promise) :=
  match names with
  | [] => .ok []
  | n :: ns =>
    match lits.lookup n with
    | none => .error (.keyError n)
    | some v => (promisesFor ns lits).map (fun rest => { var := n, val := v } :: rest)

/-- Observable outcome of `Task._local_execute`. -/
structure LocalOut where
  log : List LogEvent
  bodyCalls : Nat
  result : Except Err LocalResult

/-- `Task._local_execute`: translate the mixed promise/constant kwargs to a
literal map, run `dispatch_execute`, pass a `VoidPromise` result through
unchanged, otherwise check the literal count against the declared output
count (`AssertionError("Length difference ...")` on mismatch) and wrap each
output, in interface order, in a `Promise`.  A `DynamicJobSpec` result has
no `.literals` attribute, so that access raises `AttributeError`. -/
def _local_execute (tr : Translator) (body : Body) (t : PythonTask)
    (kwargs : List (String × Val)) : LocalOut :=
  match tr.inputsToLiterals kwargs t.inputs with
  | .error e => { log := [], bodyCalls := 0, result := .error e }
  | .ok input_literal_map =>
    let d := dispatch_execute tr body t input_literal_map
    match d.result with
    | .error e => { log := d.log, bodyCalls := d.bodyCalls, result := .error e }
    | .ok (.voidPromise s) => { log := d.log, bodyCalls := d.bodyCalls, result := .ok (.void s) }
    | .ok (.dynamicJobSpec _) =>
      { log := d.log, bodyCalls := d.bodyCalls, result := .error (.attributeError "literals") }
    | .ok (.literalMap outputs_literals) =>
      let output_names := t.outputs.map Prod.fst
      if output_names.length ≠ outputs_literals.length then
        { log := d.log, bodyCalls := d.bodyCalls,
          result := .error (.lengthMismatch output_names.length outputs_literals.length) }
      else
        match promisesFor output_names outputs_literals with
        | .error e => { log := d.log, bodyCalls := d.bodyCalls, result := .error e }
        | .ok vals =>
          { log := d.log, bodyCalls := d.bodyCalls, result := .ok (create_task_output vals) }

/-- `CompilationState` as read by `__call__` (defined in the context-manager
module outside the visible source): only its `mode` field is consulted. -/
structure CompilationState where
  mode : Nat
  deriving Repr, DecidableEq

/-- `ExecutionState.Mode` (context-manager module): the dispatch only
distinguishes `LOCAL_WORKFLOW_EXECUTION` from every other member. -/
inductive ExecutionMode where
  | local_workflow_execution : ExecutionMode
  | task_execution : ExecutionMode
  deriving Repr, DecidableEq

/-- `BranchEvalMode` (context-manager module). -/
inductive BranchEvalMode where
  | branch_active : BranchEvalMode
  | branch_skipped : BranchEvalMode
  deriving Repr, DecidableEq

/-- `ExecutionState` as read by `__call__`: its `mode` and its
`branch_eval_mode` (which may be `None`). -/
structure ExecutionState where
  mode : ExecutionMode
  branch_eval_mode : Option BranchEvalMode
  deriving Repr, DecidableEq

/-- The slice of `FlyteContext` that `__call__` reads: `compilation_state`
and `execution_state`, both optional. -/
structure FlyteContext where
  compilation_state : Option CompilationState
  execution_state : Option ExecutionState
  deriving Repr, DecidableEq

/-- `ctx.compilation_state is not None and ctx.compilation_state.mode == 1`. -/
def compilationGate (ctx : FlyteContext) : Bool :=
  match ctx.compilation_state with
  | some cs => cs.mode == 1
  | none => false

/-- `ctx.execution_state is not None and ctx.execution_state.mode == ExecutionState.Mode.LOCAL_WORKFLOW_EXECUTION`. -/
def localWorkflowGate (ctx : FlyteContext) : Bool :=
  match ctx.execution_state with
  | some es => es.mode == .local_workflow_execution
  | none => false

/-- `ctx.execution_state.branch_eval_mode == BranchEvalMode.BRANCH_SKIPPED`
(evaluated only when `execution_state` is present). -/
def branchSkipped (ctx : FlyteContext) : Bool :=
  match ctx.execution_state with
  | some es => es.branch_eval_mode == some .branch_skipped
  | none => false

/-- Result of `Task.__call__`: `None` (the bare `return` of a skipped
branch), the node/promise structure delegated to `create_and_link_node`
(opaque to this core, recorded with the bound kwargs), the local-execution
result, or the raw native return value of the body. -/
inductive CallResult where
  | pyNone : CallResult
  | compiled : List (String × Val) → CallResult
  | localRes : LocalResult → CallResult
  | raw : Val → CallResult

/-- Observable outcome of `Task.__call__`. -/
structure CallOut where
  log : List LogEvent
  bodyCalls : Nat
  result : Except Err CallResult

/-- `Task.__call__`: reject positional arguments with a `FlyteAssertion`
before anything else, then snapshot the ambient context and route to exactly
one of compilation, local workflow execution (returning `None` when the
branch is skipped), or raw execution of the body with a warning log. -/
def __call__ (tr : Translator) (body : Body) (t : PythonTask) (ctx : FlyteContext)
    (args : List Val) (kwargs : List (String × Val)) : CallOut :=
  if args.length > 0 then
    { log := [], bodyCalls := 0, result := .error (.flyteAssertion args.length) }
  else if compilationGate ctx then
    { log := [], bodyCalls := 0, result := .ok (.compiled kwargs) }
  else if localWorkflowGate ctx then
    if branchSkipped ctx then
      { log := [], bodyCalls := 0, result := .ok .pyNone }
    else
      let l := _local_execute tr body t kwargs
      { log := l.log, bodyCalls := l.bodyCalls, result := l.result.map CallResult.localRes }
  else
    let w : List LogEvent := [.warning "task run without context - executing raw function"]
    match body kwargs with
    | .error e => { log := w, bodyCalls := 1, result := .error e }
    | .ok v => { log := w, bodyCalls := 1, result := .ok (.raw v) }

/-- The registration settings consulted by `get_task_structure`
(`FlyteContext.current_context().registration_settings`). -/
structure RegistrationSettings where
  project : String
  domain : String
  version : String
  deriving Repr, DecidableEq

/-- The `SdkTask` structure assembled by `get_task_structure`: the task
fields plus the identity fields reset from the registration settings.
`custom` and `container` default to absent (`None`) on the base classes. -/
structure SdkTask where
  sdkType : String
  interface : List (String × OutVar)
  idProject : String
  idDomain : String
  idName : String
  idVersion : String
  deriving DecidableEq

/-- `Task.get_task_structure`: build an `SdkTask` from the task's fields and
reset its id from the current registration settings. -/
def get_task_structure (settings : RegistrationSettings) (t : PythonTask) : SdkTask :=
  { sdkType := t.task_type
    interface := t.outputs
    idProject := settings.project
    idDomain := settings.domain
    idName := t.name
    idVersion := settings.version }

/-- A `Task` instance's mutable state: the task data plus the
`_registerable_entity` cache slot, initialised to `None` in `__init__`. -/
structure TaskObj where
  task : PythonTask
  registerable_entity : Option SdkTask
  deriving DecidableEq

/-- `PythonTask.get_registerable_entity`: return the cached structure if the
cache slot is non-`None`, otherwise compute it via `get_task_structure` and
store it.  The returned `Nat` counts the `get_task_structure` invocations
made by this call. -/
def get_registerable_entity (settings : RegistrationSettings) (t : TaskObj) :
    SdkTask × TaskObj × Nat :=
  match t.registerable_entity with
  | some e => (e, t, 0)
  | none =>
    let e := get_task_structure settings t.task
    (e, { t with registerable_entity := some e }, 1)

/-- `true` when a dispatch call produced the "no value" sentinel. -/
def dispatchIsVoid (d : DispatchOut) : Bool :=
  match d.result with
  | .ok r => r.isVoid
  | _ => false

/-- A concrete task declaring no inputs and no outputs, for instantiating
theorems. -/
def taskZero : PythonTask :=
  { task_type := "python-task", name := "t0", inputs := [], outputs := [] }

/-- A concrete task declaring one input and one output. -/
def taskOne : PythonTask :=
  { task_type := "python-task", name := "t1", inputs := [("x", "int")],
    outputs := [("o", { pyType := "int", litType := "LiteralType(int)" })] }

/-- A concrete task declaring two outputs whose names sort against their
declaration order ("b" before "a" lexically). -/
def taskTwo : PythonTask :=
  { task_type := "python-task", name := "t2", inputs := [],
    outputs := [("b", { pyType := "int", litType := "LiteralType(int)" }),
                ("a", { pyType := "str", litType := "LiteralType(str)" })] }

/-- A context with no compilation state and no execution state. -/
def ctxBare : FlyteContext := { compilation_state := none, execution_state := none }

/-- A local-workflow-execution context whose branch evaluation is skipped. -/
def ctxSkipped : FlyteContext :=
  { compilation_state := none,
    execution_state := some { mode := .local_workflow_execution,
                              branch_eval_mode := some .branch_skipped } }

/-- A body that ignores its arguments and returns a fixed value. -/
def constBody (v : Val) : Body := fun _ => .ok v

/-- A body that ignores its arguments and raises a fixed exception. -/
def raisingBody (e : Err) : Body := fun _ => .error e

/-- C3: a call with one or more positional arguments fails with the
`FlyteAssertion` contract violation immediately: the outcome is fully
determined by the number of positional arguments — with no log, no body
invocation, and no dependence on the ambient context, the translator, the
task, or the keyword arguments (so nothing was dispatched or translated
first, and the arguments were not converted to keywords). -/
theorem c3_theorem (tr : Translator) (body : Body) (t : PythonTask) (ctx : FlyteContext)
    (args : List Val) (kwargs : List (String × Val)) (h : args ≠ []) :
    __call__ tr body t ctx args kwargs
      = { log := [], bodyCalls := 0, result := .error (.flyteAssertion args.length) } := by
  cases args with
  | nil => exact absurd rfl h
  | cons a as => simp [__call__]

/-- Witness for C3 at a concrete positional call. -/
theorem c3_witness :
    __call__ idTranslator (constBody .vnone) taskOne ctxBare [.vint 2] [("x", .vint 2)]
      = { log := [], bodyCalls := 0, result := .error (.flyteAssertion 1) } :=
  c3_theorem idTranslator (constBody .vnone) taskOne ctxBare [.vint 2] [("x", .vint 2)]
    (by simp)

/-- C4: when the ambient context is in local-workflow-execution mode with
the branch-eval flag `BRANCH_SKIPPED` (and, per the spec's precondition on
the context, the compilation axis is not simultaneously active), the call
returns `None` immediately: no result value, no log, and zero invocations
of the body. -/
theorem c4_theorem (tr : Translator) (body : Body) (t : PythonTask) (ctx : FlyteContext)
    (kwargs : List (String × Val)) (es : ExecutionState)
    (hcomp : compilationGate ctx = false)
    (hes : ctx.execution_state = some es)
    (hmode : es.mode = .local_workflow_execution)
    (hskip : es.branch_eval_mode = some .branch_skipped) :
    __call__ tr body t ctx [] kwargs
      = { log := [], bodyCalls := 0, result := .ok .pyNone } := by
  simp [__call__, hcomp, localWorkflowGate, branchSkipped, hes, hmode, hskip]

/-- Witness for C4 at a concrete skipped-branch context. -/
theorem c4_witness :
    __call__ idTranslator (constBody (.vint 9)) taskOne ctxSkipped [] [("x", .vint 2)]
      = { log := [], bodyCalls := 0, result := .ok .pyNone } :=
  c4_theorem idTranslator (constBody (.vint 9)) taskOne ctxSkipped [("x", .vint 2)]
    { mode := .local_workflow_execution, branch_eval_mode := some .branch_skipped }
    rfl rfl rfl rfl

/-- C7: when the body raises any exception `e`, `dispatch_execute` logs the
exception and re-raises exactly `e`: the result is `.error e` itself, after
one body invocation, with the exception recorded in the log. -/
theorem c7_theorem (tr : Translator) (body : Body) (t : PythonTask)
    (inp ni : List (String × Val)) (e : Err)
    (hin : tr.litToKwargs inp t.inputs = .ok ni)
    (hbody : body ni = .error e) :
    dispatch_execute tr body t inp
      = { log := [.info ("Invoking " ++ t.name ++ " with inputs"), .exceptionLog e],
          bodyCalls := 1, result := .error e } := by
  simp [dispatch_execute, hin, hbody]

/-- Witness for C7 with a concrete user exception. -/
theorem c7_witness :
    dispatch_execute idTranslator (raisingBody (.userError "boom")) taskOne [("x", .vint 2)]
      = { log := [.info "Invoking t1 with inputs", .exceptionLog (.userError "boom")],
          bodyCalls := 1, result := .error (.userError "boom") } :=
  c7_theorem idTranslator (raisingBody (.userError "boom")) taskOne
    [("x", .vint 2)] [("x", .vint 2)] (.userError "boom") rfl rfl

/-- C9: a body return value that is already a `LiteralMap` (or a
`DynamicJobSpec`) is returned verbatim by `dispatch_execute`; the result
does not depend on the output-translation function (`TypeEngine.to_literal`
is never applied to it) nor on the declared outputs (no arity check against
the interface). -/
theorem c9_theorem (tr : Translator) (t : PythonTask) (inp ni : List (String × Val))
    (m : List (String × Val)) (n : Nat) (outs : List (String × OutVar))
    (f : Val → String → String → Except Err Val)
    (hin : tr.litToKwargs inp t.inputs = .ok ni) :
    (dispatch_execute tr (constBody (.litMap m)) t inp).result = .ok (.literalMap m)
    ∧ (dispatch_execute tr (constBody (.djSpec n)) t inp).result = .ok (.dynamicJobSpec n)
    ∧ dispatch_execute { tr with toLiteral := f } (constBody (.litMap m)) t inp
        = dispatch_execute tr (constBody (.litMap m)) t inp
    ∧ dispatch_execute tr (constBody (.litMap m)) { t with outputs := outs } inp
        = dispatch_execute tr (constBody (.litMap m)) t inp := by
  refine ⟨?_, ?_, ?_, ?_⟩ <;> simp [dispatch_execute, hin, constBody]

/-- Witness for C9: a zero-output task whose body returns a literal map. -/
theorem c9_witness :
    (dispatch_execute idTranslator (constBody (.litMap [("a", .vint 1)])) taskZero []).result
      = .ok (.literalMap [("a", .vint 1)])
    ∧ (dispatch_execute idTranslator (constBody (.djSpec 5)) taskZero []).result
      = .ok (.dynamicJobSpec 5)
    ∧ dispatch_execute { idTranslator with toLiteral := fun _ _ _ => .error (.translationError "x") }
        (constBody (.litMap [("a", .vint 1)])) taskZero []
      = dispatch_execute idTranslator (constBody (.litMap [("a", .vint 1)])) taskZero []
    ∧ dispatch_execute idTranslator (constBody (.litMap [("a", .vint 1)]))
        { taskZero with outputs := taskTwo.outputs } []
      = dispatch_execute idTranslator (constBody (.litMap [("a", .vint 1)])) taskZero [] :=
  c9_theorem idTranslator taskZero [] [] [("a", .vint 1)] 5 taskTwo.outputs
    (fun _ _ _ => .error (.translationError "x")) rfl

/-- C5: a task with exactly one declared output whose body returns a
tuple-shaped value makes `dispatch_execute` raise the `AssertionError`
identifying the output name, the task name, and the received tuple. -/
theorem c5_theorem (tr : Translator) (t : PythonTask) (inp ni : List (String × Val))
    (k : String) (ov : OutVar) (vs : List Val)
    (hin : tr.litToKwargs inp t.inputs = .ok ni)
    (hout : t.outputs = [(k, ov)]) :
    (dispatch_execute tr (constBody (.tup vs)) t inp).result
      = .error (.tupleAssertion k t.name (.tup vs) ov.pyType) := by
  simp [dispatch_execute, hin, hout, constBody, native_outputs_as_map, translateLoop,
    List.lookup, Val.isTuple]

/-- Witness for C5: the one-output task receiving a pair. -/
theorem c5_witness :
    (dispatch_execute idTranslator (constBody (.tup [.vint 1, .vint 2])) taskOne
        [("x", .vint 2)]).result
      = .error (.tupleAssertion "o" "t1" (.tup [.vint 1, .vint 2]) "int") :=
  c5_theorem idTranslator taskOne [("x", .vint 2)] [("x", .vint 2)] "o"
    { pyType := "int", litType := "LiteralType(int)" } [.vint 1, .vint 2] rfl rfl

/-- C1 is falsified as stated: a task with zero declared outputs whose body
returns an already-constructed `LiteralMap` gets that map back verbatim from
`dispatch_execute` (the short-circuit fires before the zero-output
reconciliation), not the `VoidPromise` sentinel. -/
theorem c1_counterexample :
    (dispatch_execute idTranslator (constBody (.litMap [("a", .vint 1)])) taskZero []).result
      = .ok (.literalMap [("a", .vint 1)])
    ∧ dispatchIsVoid
        (dispatch_execute idTranslator (constBody (.litMap [("a", .vint 1)])) taskZero [])
      = false :=
  ⟨rfl, rfl⟩

/-- C1 amended: for every task with zero declared outputs, `dispatch_execute`
returns the `VoidPromise` sentinel for every body return value that is not
itself a `LiteralMap` or `DynamicJobSpec` (those two short-circuit and are
returned verbatim). -/
theorem c1_amended_theorem (tr : Translator) (body : Body) (t : PythonTask)
    (inp ni : List (String × Val)) (v : Val)
    (hin : tr.litToKwargs inp t.inputs = .ok ni)
    (hout : t.outputs = [])
    (hbody : body ni = .ok v)
    (hlm : v.isLitMap = false)
    (hdj : v.isDjSpec = false) :
    (dispatch_execute tr body t inp).result = .ok (.voidPromise t.name) := by
  cases v <;>
    simp_all [dispatch_execute, native_outputs_as_map, Val.isLitMap, Val.isDjSpec]

/-- Witness for the amended C1: the zero-output task with a body returning
an ignored native value. -/
theorem c1_witness :
    (dispatch_execute idTranslator (constBody (.vint 7)) taskZero []).result
      = .ok (.voidPromise "t0") :=
  c1_amended_theorem idTranslator (constBody (.vint 7)) taskZero [] [] (.vint 7)
    rfl rfl rfl rfl rfl

/-- C8: starting from the freshly-constructed cache slot (`None`), the first
`get_registerable_entity` call computes the structure via
`get_task_structure` (exactly one computation), and a second call — even
under different registration settings — returns the identical structure,
leaves the instance unchanged, and performs zero further computations. -/
theorem c8_theorem (s1 s2 : RegistrationSettings) (t : TaskObj)
    (h : t.registerable_entity = none) :
    (get_registerable_entity s1 t).1 = get_task_structure s1 t.task
    ∧ (get_registerable_entity s1 t).2.2 = 1
    ∧ (get_registerable_entity s2 (get_registerable_entity s1 t).2.1).1
        = (get_registerable_entity s1 t).1
    ∧ (get_registerable_entity s2 (get_registerable_entity s1 t).2.1).2.1
        = (get_registerable_entity s1 t).2.1
    ∧ (get_registerable_entity s2 (get_registerable_entity s1 t).2.1).2.2 = 0 := by
  simp [get_registerable_entity, h]

/-- Witness for C8 with two different settings values. -/
theorem c8_witness :
    (get_registerable_entity { project := "p", domain := "d", version := "v" }
        { task := taskOne, registerable_entity := none }).1
      = get_task_structure { project := "p", domain := "d", version := "v" } taskOne
    ∧ (get_registerable_entity { project := "p", domain := "d", version := "v" }
        { task := taskOne, registerable_entity := none }).2.2 = 1
    ∧ (get_registerable_entity { project := "q", domain := "e", version := "w" }
        (get_registerable_entity { project := "p", domain := "d", version := "v" }
          { task := taskOne, registerable_entity := none }).2.1).1
      = (get_registerable_entity { project := "p", domain := "d", version := "v" }
          { task := taskOne, registerable_entity := none }).1
    ∧ (get_registerable_entity { project := "q", domain := "e", version := "w" }
        (get_registerable_entity { project := "p", domain := "d", version := "v" }
          { task := taskOne, registerable_entity := none }).2.1).2.1
      = (get_registerable_entity { project := "p", domain := "d", version := "v" }
          { task := taskOne, registerable_entity := none }).2.1
    ∧ (get_registerable_entity { project := "q", domain := "e", version := "w" }
        (get_registerable_entity { project := "p", domain := "d", version := "v" }
          { task := taskOne, registerable_entity := none }).2.1).2.2 = 0 :=
  c8_theorem { project := "p", domain := "d", version := "v" }
    { project := "q", domain := "e", version := "w" }
    { task := taskOne, registerable_entity := none } rfl

/-- C10: a non-`None` compilation state whose `mode` is not `1` does not
take the compile path — the call behaves exactly as if no compilation state
were present, falling through to the execution-state dispatch. -/
theorem c10_theorem (tr : Translator) (body : Body) (t : PythonTask) (ctx : FlyteContext)
    (cs : CompilationState) (args : List Val) (kwargs : List (String × Val))
    (h : cs.mode ≠ 1) :
    __call__ tr body t { ctx with compilation_state := some cs } args kwargs
      = __call__ tr body t { ctx with compilation_state := none } args kwargs := by
  simp [__call__, compilationGate, localWorkflowGate, branchSkipped,
    beq_eq_false_iff_ne, h]

/-- Witness for C10 with compilation mode `2` over a bare context. -/
theorem c10_witness :
    __call__ idTranslator (constBody (.vint 3)) taskZero
        { ctxBare with compilation_state := some { mode := 2 } } [] []
      = __call__ idTranslator (constBody (.vint 3)) taskZero
        { ctxBare with compilation_state := none } [] [] :=
  c10_theorem idTranslator (constBody (.vint 3)) taskZero ctxBare { mode := 2 } [] []
    (by simp)

/-- A key occurring among an association list's keys is found by `lookup`. -/
theorem lookup_isSome_of_mem_keys {β : Type} (l : List (String × β)) (k : String)
    (h : k ∈ l.map Prod.fst) : (l.lookup k).isSome := by
  induction l with
  | nil => simp at h
  | cons p l ih =>
    obtain ⟨a, b⟩ := p
    by_cases hk : k = a
    · simp [List.lookup_cons, hk]
    · have hmem : k ∈ l.map Prod.fst := by simpa [hk] using h
      have hba : (k == a) = false := beq_eq_false_iff_ne.mpr hk
      rw [List.lookup_cons, hba]
      exact ih hmem

/-- In an association list with distinct keys, `lookup` of an entry's key
returns that entry's value. -/
theorem lookup_eq_of_nodup {β : Type} (l : List (String × β))
    (hnd : (l.map Prod.fst).Nodup) :
    ∀ p ∈ l, l.lookup p.1 = some p.2 := by
  induction l with
  | nil => simp
  | cons q l ih =>
    obtain ⟨a, b⟩ := q
    intro p hp
    rcases List.mem_cons.mp hp with h | h
    · subst h; simp [List.lookup_cons]
    · have ha : p.1 ≠ a := by
        intro he
        have : p.1 ∈ l.map Prod.fst := List.mem_map_of_mem Prod.fst h
        rw [he] at this
        exact (List.nodup_cons.mp (by simpa using hnd)).1 this
      have hba : (p.1 == a) = false := beq_eq_false_iff_ne.mpr ha
      rw [List.lookup_cons, hba]
      exact ih (by simpa using (List.nodup_cons.mp (by simpa using hnd)).2) p h

/-- When the sequence fits inside the declared names, the positional dict
comprehension binds element `i` to declared name `i`: it produces exactly
the zip of the remaining names with the sequence. -/
theorem enumBind_eq_zip (xs : List Val) (names : List String) :
    ∀ i : Nat, i + xs.length ≤ names.length →
    enumBind names i xs = .ok ((names.drop i).zip xs) := by
  induction xs with
  | nil => intro i _; simp [enumBind]
  | cons x xs ih =>
    intro i h
    have hi : i < names.length := by simp at h; omega
    rw [enumBind, List.get?_eq_getElem?, List.getElem?_eq_getElem hi]
    rw [ih (i + 1) (by simp at h ⊢; omega)]
    rw [List.drop_eq_getElem_cons hi, List.zip_cons_cons]
    rfl

/-- When the sequence is longer than the declared names, the positional dict
comprehension hits `expected_output_names[len(names)]` and raises
`IndexError`. -/
theorem enumBind_indexError (xs : List Val) (names : List String) :
    ∀ i : Nat, i ≤ names.length → names.length < i + xs.length →
    enumBind names i xs = .error (.indexError names.length) := by
  induction xs with
  | nil => intro i h1 h2; simp at h2; omega
  | cons x xs ih =>
    intro i h1 h2
    by_cases hi : i < names.length
    · rw [enumBind, List.get?_eq_getElem?, List.getElem?_eq_getElem hi]
      rw [ih (i + 1) (by omega) (by simp at h2 ⊢; omega)]
      rfl
    · have hie : i = names.length := by omega
      rw [enumBind, List.get?_eq_getElem?, List.getElem?_eq_none (by omega), hie]

/-- When every bound value has a declared output and none is a tuple, and
the type engine succeeds on every value, the output-translation loop
succeeds and preserves the number and the order of the bound names. -/
theorem translateLoop_ok_of_safe (tr : Translator) (t : PythonTask)
    (htl : ∀ v p l, ∃ w, tr.toLiteral v p l = .ok w) :
    ∀ m : List (String × Val),
      (∀ p ∈ m, ((t.outputs.lookup p.1).isSome ∧ p.2.isTuple = false)) →
      ∃ lits, translateLoop tr t m = .ok lits ∧ lits.length = m.length
        ∧ lits.map Prod.fst = m.map Prod.fst := by
  intro m
  induction m with
  | nil => exact fun _ => ⟨[], rfl, rfl, rfl⟩
  | cons p m ih =>
    intro hm
    obtain ⟨k, v⟩ := p
    obtain ⟨hsome, hnt⟩ := hm (k, v) (List.mem_cons_self _ _)
    obtain ⟨ov, hov⟩ := Option.isSome_iff_exists.mp hsome
    obtain ⟨w, hw⟩ := htl v ov.pyType ov.litType
    obtain ⟨lits, hl, hlen, hkeys⟩ := ih (fun q hq => hm q (List.mem_cons_of_mem _ hq))
    refine ⟨(k, w) :: lits, ?_, by simp [hlen], by simp [hkeys]⟩
    simp [translateLoop, hov, hnt, hw, hl, Except.map]

/-- A leading entry whose key is not looked up can be dropped from the
literal map consulted by the promise-wrapping loop. -/
theorem promisesFor_skip (names : List String) (n : String) (w : Val)
    (rest : List (String × Val)) (h : n ∉ names) :
    promisesFor names ((n, w) :: rest) = promisesFor names rest := by
  induction names with
  | nil => rfl
  | cons m ms ih =>
    have hmn : m ≠ n := fun he => h (by simp [he])
    rw [promisesFor, promisesFor, List.lookup_cons]
    simp only [beq_eq_false_iff_ne.mpr hmn]
    rw [ih (fun hc => h (List.mem_cons_of_mem _ hc))]

/-- Wrapping a literal map that binds each declared name (distinct names,
in declaration order) produces one promise per name, in the same order. -/
theorem promisesFor_zip_of_nodup (names : List String) :
    ∀ ws : List Val, names.Nodup → ws.length = names.length →
    promisesFor names (names.zip ws) = .ok (List.zipWith Promise.mk names ws) := by
  induction names with
  | nil =>
    intro ws _ hlen
    cases ws with
    | nil => rfl
    | cons w ws => simp at hlen
  | cons n ns ih =>
    intro ws hnd hlen
    cases ws with
    | nil => simp at hlen
    | cons w ws =>
      rw [List.zip_cons_cons, promisesFor, List.lookup_cons]
      simp only [beq_self_eq_true]
      rw [promisesFor_skip ns n w (ns.zip ws) (List.nodup_cons.mp hnd).1]
      rw [ih ws (List.nodup_cons.mp hnd).2 (by simpa using hlen)]
      rfl

/-- Reduction of `dispatch_execute` for a body returning a tuple when more
than one output is declared: the result is the positional binding
(`enumBind`) fed through the output-translation loop. -/
theorem dispatch_tup_multi (tr : Translator) (t : PythonTask)
    (inp ni : List (String × Val)) (xs : List Val)
    (hin : tr.litToKwargs inp t.inputs = .ok ni)
    (hN : 1 < t.outputs.length) :
    (dispatch_execute tr (constBody (.tup xs)) t inp).result
      = ((enumBind (t.outputs.map Prod.fst) 0 xs).bind
          (fun m => translateLoop tr t m)).map DispatchResult.literalMap := by
  rcases houts : t.outputs with _ | ⟨o1, _ | ⟨o2, os⟩⟩
  · rw [houts] at hN; simp at hN
  · rw [houts] at hN; simp at hN
  · simp only [dispatch_execute, hin, constBody, houts, List.map_cons,
      native_outputs_as_map, seqElems]
    cases henum : enumBind (o1.1 :: o2.1 :: os.map Prod.fst) 0 xs with
    | error e => simp [henum, Except.map, Except.bind]
    | ok m =>
      cases htr : translateLoop tr t m with
      | error e => simp [henum, htr, Except.map, Except.bind]
      | ok lits => simp [henum, htr, Except.map, Except.bind]

/-- C2: with more than one declared output and a body returning an ordered
sequence of matching length, `dispatch_execute` translates exactly the
positional zip of the declared output names (taken in interface declaration
order, whatever their lexical order) with the sequence's elements; and
under local execution a body sequence of any other length is a fatal
error — the `IndexError` from positional binding when too long, the
`AssertionError` length check when too short — never a silent truncation or
padding. -/
theorem c2_theorem (tr : Translator) (t : PythonTask)
    (inp ni kwargs ilm ni2 : List (String × Val)) (xs : List Val)
    (hN : 1 < t.outputs.length)
    (hin : tr.litToKwargs inp t.inputs = .ok ni)
    (hx : xs.length = t.outputs.length)
    (hloc : tr.inputsToLiterals kwargs t.inputs = .ok ilm)
    (hin2 : tr.litToKwargs ilm t.inputs = .ok ni2) :
    ((dispatch_execute tr (constBody (.tup xs)) t inp).result
      = (translateLoop tr t ((t.outputs.map Prod.fst).zip xs)).map DispatchResult.literalMap)
    ∧ ∀ ys : List Val,
        (∀ v p l, ∃ w, tr.toLiteral v p l = .ok w) →
        (∀ y ∈ ys, y.isTuple = false) →
        ys.length ≠ t.outputs.length →
        (_local_execute tr (constBody (.tup ys)) t kwargs).result
          = .error (if t.outputs.length < ys.length
              then .indexError t.outputs.length
              else .lengthMismatch t.outputs.length ys.length) := by
  have hnlen : (t.outputs.map Prod.fst).length = t.outputs.length := List.length_map _ _
  constructor
  · rw [dispatch_tup_multi tr t inp ni xs hin hN]
    rw [enumBind_eq_zip xs (t.outputs.map Prod.fst) 0 (by omega)]
    simp [Except.bind]
  · intro ys htl hnt hys
    by_cases hlong : t.outputs.length < ys.length
    · have he := enumBind_indexError ys (t.outputs.map Prod.fst) 0 (by omega) (by omega)
      rw [hnlen] at he
      have hd : (dispatch_execute tr (constBody (.tup ys)) t ilm).result
          = .error (.indexError t.outputs.length) := by
        rw [dispatch_tup_multi tr t ilm ni2 ys hin2 hN, he]
        simp [Except.bind, Except.map]
      simp only [_local_execute, hloc]
      rw [hd, if_pos hlong]
    · have hshort : ys.length < t.outputs.length := by omega
      have hz := enumBind_eq_zip ys (t.outputs.map Prod.fst) 0 (by omega)
      rw [List.drop_zero] at hz
      obtain ⟨lits, hlits, hlen, _⟩ := translateLoop_ok_of_safe tr t htl
        ((t.outputs.map Prod.fst).zip ys)
        (by
          intro p hp
          obtain ⟨h1, h2⟩ := List.of_mem_zip hp
          exact ⟨lookup_isSome_of_mem_keys t.outputs p.1 h1, hnt p.2 h2⟩)
      have hlitlen : lits.length = ys.length := by
        rw [hlen, List.length_zip, hnlen]
        omega
      have hd : (dispatch_execute tr (constBody (.tup ys)) t ilm).result
          = .ok (.literalMap lits) := by
        rw [dispatch_tup_multi tr t ilm ni2 ys hin2 hN, hz]
        simp [Except.bind, Except.map, hlits]
      simp only [_local_execute, hloc]
      rw [hd]
      have hne : (t.outputs.map Prod.fst).length ≠ lits.length := by
        rw [hnlen, hlitlen]; omega
      have hys' : ¬(t.outputs.length = ys.length) := fun h => hys h.symm
      simp [hne, hnlen, hlitlen, hys', hlong]

/-- Witness for C2 on the two-output task whose output names sort opposite
to their declaration order: a two-element body return is bound
positionally, and a three-element return under local execution raises the
`IndexError` at position 2. -/
theorem c2_witness :
    ((dispatch_execute idTranslator (constBody (.tup [.vint 1, .vstr "x"])) taskTwo []).result
      = (translateLoop idTranslator taskTwo
          ((taskTwo.outputs.map Prod.fst).zip [.vint 1, .vstr "x"])).map DispatchResult.literalMap)
    ∧ (_local_execute idTranslator (constBody (.tup [.vint 1, .vstr "x", .vstr "extra"]))
        taskTwo []).result = .error (.indexError 2) := by
  have h := c2_theorem idTranslator taskTwo [] [] [] [] []
    [.vint 1, .vstr "x"] (by simp [taskTwo]) rfl (by simp [taskTwo]) rfl rfl
  refine ⟨h.1, ?_⟩
  have h2 := h.2 [.vint 1, .vstr "x", .vstr "extra"]
    (fun v p l => ⟨v, rfl⟩) (by simp [Val.isTuple]) (by simp [taskTwo])
  simpa [taskTwo] using h2

/-- `create_task_output` yields the ordered collection whenever the promise
list is not a singleton. -/
theorem create_task_output_multi (vals : List Promise) (h : vals.length ≠ 1) :
    create_task_output vals = .multi vals := by
  cases vals with
  | nil => rfl
  | cons v vs =>
    cases vs with
    | nil => simp at h
    | cons w ws => rfl

/-- C6: under local execution, a `VoidPromise` dispatch result is returned
unchanged; with exactly one declared output a literal map binding that
output yields a single `Promise`; with N>1 declared outputs a literal map
binding each declared name (in interface order) yields an ordered
collection of exactly N promises, one per declared output name in
interface order. -/
theorem c6_theorem (tr : Translator) (body : Body) (t : PythonTask)
    (kwargs ilm : List (String × Val))
    (hloc : tr.inputsToLiterals kwargs t.inputs = .ok ilm) :
    (∀ s, (dispatch_execute tr body t ilm).result = .ok (.voidPromise s) →
        (_local_execute tr body t kwargs).result = .ok (.void s))
    ∧ (∀ n w, t.outputs.map Prod.fst = [n] →
        (dispatch_execute tr body t ilm).result = .ok (.literalMap [(n, w)]) →
        (_local_execute tr body t kwargs).result = .ok (.single { var := n, val := w }))
    ∧ (∀ ws : List Val, (t.outputs.map Prod.fst).Nodup → 1 < t.outputs.length →
        ws.length = t.outputs.length →
        (dispatch_execute tr body t ilm).result
            = .ok (.literalMap ((t.outputs.map Prod.fst).zip ws)) →
        (_local_execute tr body t kwargs).result
            = .ok (.multi (List.zipWith Promise.mk (t.outputs.map Prod.fst) ws))
          ∧ (List.zipWith Promise.mk (t.outputs.map Prod.fst) ws).length
              = t.outputs.length) := by
  refine ⟨?_, ?_, ?_⟩
  · intro s hd
    simp only [_local_execute, hloc]
    simp [hd]
  · intro n w hn hd
    simp only [_local_execute, hloc]
    simp [hd, hn, promisesFor, List.lookup_cons, create_task_output, Except.map]
  · intro ws hnd h1 hws hd
    have hzwlen : (List.zipWith Promise.mk (t.outputs.map Prod.fst) ws).length
        = t.outputs.length := by
      rw [List.length_zipWith, List.length_map]
      omega
    refine ⟨?_, hzwlen⟩
    have hp := promisesFor_zip_of_nodup (t.outputs.map Prod.fst) ws hnd
      (by rw [hws, List.length_map])
    have hcond : ¬((t.outputs.map Prod.fst).length ≠ ((t.outputs.map Prod.fst).zip ws).length) := by
      rw [List.length_zip, List.length_map]
      omega
    simp only [_local_execute, hloc]
    simp [hd, hcond, hp, hws, create_task_output_multi _ (by rw [hzwlen]; omega)]

/-- Witness for C6: the `VoidPromise` passthrough on the zero-output task,
a single promise on the one-output task, and an ordered pair of promises on
the two-output task. -/
theorem c6_witness :
    (_local_execute idTranslator (constBody .vnone) taskZero []).result = .ok (.void "t0")
    ∧ (_local_execute idTranslator (constBody (.litMap [("o", .vint 5)])) taskOne
        [("x", .vint 2)]).result = .ok (.single { var := "o", val := .vint 5 })
    ∧ (_local_execute idTranslator (constBody (.litMap [("b", .vint 1), ("a", .vstr "x")]))
        taskTwo []).result
      = .ok (.multi [{ var := "b", val := .vint 1 }, { var := "a", val := .vstr "x" }]) := by
  refine ⟨?_, ?_, ?_⟩
  · exact (c6_theorem idTranslator (constBody .vnone) taskZero [] [] rfl).1 "t0" rfl
  · exact (c6_theorem idTranslator (constBody (.litMap [("o", .vint 5)])) taskOne
      [("x", .vint 2)] [("x", .vint 2)] rfl).2.1 "o" (.vint 5) rfl rfl
  · have h := (c6_theorem idTranslator (constBody (.litMap [("b", .vint 1), ("a", .vstr "x")]))
      taskTwo [] [] rfl).2.2 [.vint 1, .vstr "x"] (by decide) (by decide) (by decide) rfl
    simpa [taskTwo] using h.1
